import Mathlib

/-!
A shallow embedding of the Solana escrow program
(src/src/instruction.rs, src/src/error.rs, src/src/processor.rs).

Modelling conventions:

* `Pubkey` is an abstract account identity, modelled as `Nat`.
* An account's data region is modelled at field granularity by `AccountData`:
  a region is either empty (zero length, as after the processor clears a
  closed account with `*info.try_borrow_mut_data()? = &mut []`), an escrow
  record region, an SPL token account, an SPL mint, or something else.
* The SPL token program and the host runtime's `invoke`/`invoke_signed` are
  external collaborators (spec section 1): a sub-call is recorded as an
  `Invocation` and its outcome is given by an oracle
  `env : Invocation → Option ProgramError` (`none` = success).  The oracle
  performs no state change of its own here; the lamport moves the processor
  itself performs are modelled exactly.
* `Pubkey::find_program_address(&[b"escrow"], program_id)` is an external
  deterministic derivation, passed as an oracle `fpa : Pubkey → Pubkey × Nat`
  returning the derived identity and the bump seed.
* `Rent::from_account_info(..)` / `rent.is_exempt(lamports, len)` is external,
  passed as `rent_is_exempt : Nat → Nat → Bool`.
* Lamport balances are `Nat`s holding `u64` values; `checked_add` fails from
  `2 ^ 64` on, exactly as `u64::checked_add`.
* Each processor entry point returns a `ProcOut`: the `Result`, the accounts
  as they stand at the return point (the host runtime rolls the whole
  transaction back whenever the result is an error), and the sub-calls it
  issued, in order.  Accounts are modelled as disjoint storage slots, indexed
  by their position in the supplied account list.
-/

/-- Equality on `Except` results is decidable (used to evaluate the embedded
fallible operations on concrete inputs). -/
instance {ε α : Type} [DecidableEq ε] [DecidableEq α] : DecidableEq (Except ε α) := by
  intro x y
  cases x <;> cases y
  case error.error a b =>
    exact if h : a = b then isTrue (by rw [h]) else isFalse (by simp [h])
  case ok.ok a b =>
    exact if h : a = b then isTrue (by rw [h]) else isFalse (by simp [h])
  case error.ok a b => exact isFalse (fun h => Except.noConfusion h)
  case ok.error a b => exact isFalse (fun h => Except.noConfusion h)

abbrev Pubkey := Nat

/-- One more than `u64::MAX`: `u64::checked_add` fails from here on. -/
def U64_LIMIT : Nat := 2 ^ 64

/-- `u64::checked_add` (used for the lamport reclamations in processor.rs). -/
def checked_add (a b : Nat) : Option Nat :=
  if a + b < U64_LIMIT then some (a + b) else none

/-- solana_program's ProgramError, restricted to the variants this program can
produce.  `Custom n` carries an escrow error discriminant, as produced by
`From<EscrowError> for ProgramError` in error.rs. -/
inductive ProgramError where
  | Custom (code : Nat)
  | MissingRequiredSignature
  | IncorrectProgramId
  | InvalidAccountData
  | UninitializedAccount
  | AccountAlreadyInitialized
  | NotEnoughAccountKeys
  deriving DecidableEq

/-- The `EscrowError` enum exactly as error.rs declares it: two variants,
`InvalidInstruction` and `NotRentExempt`, nothing else. -/
inductive EscrowErrorDecl where
  | InvalidInstruction
  | NotRentExempt
  deriving DecidableEq

/-- The discriminant `e as u32` of the enum as declared in error.rs. -/
def EscrowErrorDecl.code : EscrowErrorDecl → Nat
  | .InvalidInstruction => 0
  | .NotRentExempt => 1

/-- error.rs `From<EscrowError> for ProgramError`: `ProgramError::Custom(e as u32)`,
on the enum as declared. -/
def EscrowErrorDecl.toProgramError (e : EscrowErrorDecl) : ProgramError :=
  ProgramError.Custom e.code

/-- Modelled from the spec: processor.rs returns `EscrowError::ExpectedAmountMismatch`
(line 126) and `EscrowError::AmountOverflow` (lines 249 and 296), neither of which
the `EscrowError` enum in error.rs declares.  Spec section 7's taxonomy and the
section 9 note ("treat the fuller error taxonomy as authoritative") give the fuller
enum, which extends the declared one in order, so the two extra kinds take the next
discriminants, 2 and 3. -/
inductive EscrowError where
  | InvalidInstruction
  | NotRentExempt
  | ExpectedAmountMismatch
  | AmountOverflow
  deriving DecidableEq

/-- The discriminant `e as u32` of the fuller (spec-authoritative) enum. -/
def EscrowError.code : EscrowError → Nat
  | .InvalidInstruction => 0
  | .NotRentExempt => 1
  | .ExpectedAmountMismatch => 2
  | .AmountOverflow => 3

/-- error.rs `From<EscrowError> for ProgramError`: `ProgramError::Custom(e as u32)`. -/
def EscrowError.toProgramError (e : EscrowError) : ProgramError :=
  ProgramError.Custom e.code

/-- instruction.rs `EscrowInstruction` (payload only; the expected account
lists are documentation). -/
inductive EscrowInstruction where
  | InitEscrow (amount : Nat)
  | Exchange (amount : Nat)
  | Cancel
  deriving DecidableEq

/-- `u64::from_le_bytes` on a byte list, least significant byte first. -/
def u64_le : List Nat → Nat
  | [] => 0
  | b :: bs => b + 256 * u64_le bs

/-- instruction.rs `EscrowInstruction::unpack_amount`: `input.get(..8)` is the
first eight bytes, `None` when fewer are present (then `InvalidInstruction`),
and the eight bytes are read as a little-endian u64. -/
def unpack_amount (input : List Nat) : Except ProgramError Nat :=
  if 8 ≤ input.length then
    Except.ok (u64_le (input.take 8))
  else
    Except.error EscrowError.InvalidInstruction.toProgramError

/-- instruction.rs `EscrowInstruction::unpack`: `split_first` fails on an empty
buffer with `InvalidInstruction`; tag 0 is InitEscrow, 1 is Exchange (both with
an amount payload), 2 is Cancel (no payload read), anything else is
`InvalidInstruction`. -/
def EscrowInstruction.unpack (input : List Nat) : Except ProgramError EscrowInstruction :=
  match input with
  | [] => Except.error EscrowError.InvalidInstruction.toProgramError
  | tag :: rest =>
    match tag with
    | 0 => (unpack_amount rest).map fun amount => EscrowInstruction.InitEscrow amount
    | 1 => (unpack_amount rest).map fun amount => EscrowInstruction.Exchange amount
    | 2 => Except.ok EscrowInstruction.Cancel
    | _ => Except.error EscrowError.InvalidInstruction.toProgramError

/-- Modelled from the spec: the persisted escrow record `crate::state::Escrow`
(state.rs is not among the repository's files; only its uses in processor.rs
are).  Field names follow processor.rs's field accesses; the spec's data model
(sections 3 and 6) gives the fields and the fixed 105-byte layout
`is_initialized:1, initializer_identity:32, custody_account_ref:32,
initializer_payout_ref:32, expected_amount:8`. -/
structure Escrow where
  is_initialized : Bool
  initializer_pubkey : Pubkey
  temp_token_account_pubkey : Pubkey
  initializer_token_to_receive_account_pubkey : Pubkey
  expected_amount : Nat
  deriving DecidableEq

/-- spl_token::state::Account, reduced to the one field the program reads. -/
structure TokenAccount where
  amount : Nat
  deriving DecidableEq

/-- An account's data region, at field granularity. -/
inductive AccountData where
  | empty
  | escrowData (e : Escrow)
  | tokenData (t : TokenAccount)
  | mintData
  | other (len : Nat)
  deriving DecidableEq

/-- The region's length in bytes (`Escrow::LEN` = 105, an SPL token account is
165 bytes, an SPL mint 82). -/
def AccountData.len : AccountData → Nat
  | .empty => 0
  | .escrowData _ => 105
  | .tokenData _ => 165
  | .mintData => 82
  | .other n => n

/-- spl_token `TokenAccount::unpack` as the processor uses it: succeeds exactly
on a token-account region (in particular it fails on a mint, processor.rs lines
53-55), failing with `InvalidAccountData` as `Pack::unpack` does. -/
def TokenAccount.unpack : AccountData → Except ProgramError TokenAccount
  | .tokenData t => Except.ok t
  | _ => Except.error ProgramError.InvalidAccountData

/-- Modelled from the spec: `Escrow::unpack_unchecked` (the `Pack` impl lives in
the missing state.rs).  Spec section 4.2 step 5 has it tolerate an
all-zero/uninitialized buffer, and section 4.3 step 8 clears a closed record's
storage "to the uninitialized state", so an escrow region decodes to its record,
a cleared region decodes to the uninitialized record, and any other region fails
with `InvalidAccountData` as `Pack` does on a malformed buffer. -/
def Escrow.unpack_unchecked : AccountData → Except ProgramError Escrow
  | .escrowData e => Except.ok e
  | .empty => Except.ok ⟨false, 0, 0, 0, 0⟩
  | _ => Except.error ProgramError.InvalidAccountData

/-- `Pack::unpack` (program_pack's default method): `unpack_unchecked`, then
require `is_initialized`, else `UninitializedAccount`. -/
def Escrow.unpack (d : AccountData) : Except ProgramError Escrow :=
  match Escrow.unpack_unchecked d with
  | Except.ok e =>
    if e.is_initialized then Except.ok e
    else Except.error ProgramError.UninitializedAccount
  | Except.error err => Except.error err

/-- solana_program `AccountInfo`, reduced to what the processor reads and
writes: key, signer flag, owning program, lamport balance, data region. -/
structure AccountInfo where
  key : Pubkey
  is_signer : Bool
  owner : Pubkey
  lamports : Nat
  data : AccountData
  deriving DecidableEq

/-- `spl_token::id()`, the token program's fixed identity (an opaque constant
key; its concrete value never matters, only equality with it). -/
def spl_token_id : Pubkey := 961

/-- An spl_token instruction as the processor builds one.  `set_authority` is
always built with `AuthorityType::AccountOwner` here, so that field is left
out. -/
inductive TokenInstr where
  | set_authority (token_program acct : Pubkey) (new_authority : Option Pubkey)
      (current_authority : Pubkey) (signer_keys : List Pubkey)
  | transfer (token_program source destination authority : Pubkey)
      (signer_keys : List Pubkey) (amount : Nat)
  | close_account (token_program acct destination owner_key : Pubkey)
      (signer_keys : List Pubkey)
  deriving DecidableEq

/-- A sub-call as issued: `invoke` (`seed_bump = none`) or `invoke_signed` with
the seeds `[b"escrow", bump]` (`seed_bump = some bump`). -/
structure Invocation where
  ix : TokenInstr
  seed_bump : Option Nat
  deriving DecidableEq

/-- The token service / host runtime as an oracle: the outcome of each
sub-call (`none` = success, `some e` = the pass-through failure `e`). -/
abbrev CpiEnv := Invocation → Option ProgramError

/-- `Pubkey::find_program_address(&[b"escrow"], program_id)` as an oracle:
the derived custody identity and its bump seed. -/
abbrev PdaDerive := Pubkey → Pubkey × Nat

/-- Outcome of one processor entry point: the result (`none` = `Ok(())`), the
accounts at the return point, and the sub-calls issued, in order. -/
structure ProcOut where
  result : Option ProgramError
  accounts : List AccountInfo
  cpis : List Invocation
  deriving DecidableEq

/-- Outcome of `close_pda_and_escrow`, which mutates only the initializer's
main account (lamports) and the escrow record account (lamports and data). -/
structure CloseOut where
  result : Option ProgramError
  main_lamports : Nat
  escrow_lamports : Nat
  escrow_data : AccountData
  cpis : List Invocation
  deriving DecidableEq

/-- processor.rs `close_pda_and_escrow`: a delegated (`invoke_signed`)
`close_account` of the PDA's temp token account paying out to the initializer's
main account, then the escrow record account's lamports are reclaimed into the
main account with `checked_add` (`AmountOverflow` on failure), zeroed, and the
record's data region cleared. -/
def close_pda_and_escrow (pda_temp_token_account_info token_program_info
    initializers_main_account_info : AccountInfo) (pda : Pubkey) (bump_seed : Nat)
    (_pda_account_info escrow_account_info : AccountInfo) (env : CpiEnv) : CloseOut :=
  let close_pdas_temp_acc_ix := TokenInstr.close_account token_program_info.key
      pda_temp_token_account_info.key initializers_main_account_info.key pda [pda]
  let inv : Invocation := ⟨close_pdas_temp_acc_ix, some bump_seed⟩
  match env inv with
  | some e =>
    ⟨some e, initializers_main_account_info.lamports, escrow_account_info.lamports,
      escrow_account_info.data, [inv]⟩
  | none =>
    match checked_add initializers_main_account_info.lamports escrow_account_info.lamports with
    | none =>
      ⟨some EscrowError.AmountOverflow.toProgramError,
        initializers_main_account_info.lamports, escrow_account_info.lamports,
        escrow_account_info.data, [inv]⟩
    | some s =>
      ⟨none, s, 0, AccountData.empty, [inv]⟩

/-- processor.rs `process_init_escrow`.  Account order (instruction.rs):
0 initializer (signer), 1 temp token account, 2 token-to-receive account,
3 escrow record account, 4 rent sysvar, 5 token program. -/
def process_init_escrow (account_infos : List AccountInfo) (amount : Nat)
    (program_id : Pubkey) (rent_is_exempt : Nat → Nat → Bool)
    (fpa : PdaDerive) (env : CpiEnv) : ProcOut :=
  match account_infos[0]? with
  | none => ⟨some ProgramError.NotEnoughAccountKeys, account_infos, []⟩
  | some initializer_account_info =>
  if !initializer_account_info.is_signer then
    ⟨some ProgramError.MissingRequiredSignature, account_infos, []⟩
  else
  match account_infos[1]? with
  | none => ⟨some ProgramError.NotEnoughAccountKeys, account_infos, []⟩
  | some temp_token_account_info =>
  match account_infos[2]? with
  | none => ⟨some ProgramError.NotEnoughAccountKeys, account_infos, []⟩
  | some token_to_receive_account_info =>
  if token_to_receive_account_info.owner ≠ spl_token_id then
    ⟨some ProgramError.IncorrectProgramId, account_infos, []⟩
  else
  match TokenAccount.unpack token_to_receive_account_info.data with
  | Except.error e => ⟨some e, account_infos, []⟩
  | Except.ok _ =>
  match account_infos[3]? with
  | none => ⟨some ProgramError.NotEnoughAccountKeys, account_infos, []⟩
  | some escrow_account_info =>
  match account_infos[4]? with
  | none => ⟨some ProgramError.NotEnoughAccountKeys, account_infos, []⟩
  | some _rent_sysvar_info =>
  if !rent_is_exempt escrow_account_info.lamports escrow_account_info.data.len then
    ⟨some EscrowError.NotRentExempt.toProgramError, account_infos, []⟩
  else
  match Escrow.unpack_unchecked escrow_account_info.data with
  | Except.error e => ⟨some e, account_infos, []⟩
  | Except.ok escrow_info =>
  if escrow_info.is_initialized then
    ⟨some ProgramError.AccountAlreadyInitialized, account_infos, []⟩
  else
  let new_escrow : Escrow :=
    { is_initialized := true
      initializer_pubkey := initializer_account_info.key
      temp_token_account_pubkey := temp_token_account_info.key
      initializer_token_to_receive_account_pubkey := token_to_receive_account_info.key
      expected_amount := amount }
  let account_infos1 :=
    account_infos.set 3 { escrow_account_info with data := AccountData.escrowData new_escrow }
  let pda := (fpa program_id).1
  match account_infos[5]? with
  | none => ⟨some ProgramError.NotEnoughAccountKeys, account_infos1, []⟩
  | some token_program_account_info =>
  let owner_change_ix := TokenInstr.set_authority token_program_account_info.key
      temp_token_account_info.key (some pda) initializer_account_info.key
      [initializer_account_info.key]
  let inv : Invocation := ⟨owner_change_ix, none⟩
  match env inv with
  | some e => ⟨some e, account_infos1, [inv]⟩
  | none => ⟨none, account_infos1, [inv]⟩

/-- processor.rs `process_exchange`.  Account order (instruction.rs):
0 taker (signer), 1 taker's sending token account, 2 taker's receiving token
account, 3 PDA's temp token account, 4 initializer's main account,
5 initializer's token-to-receive account, 6 escrow record account,
7 token program, 8 PDA account. -/
def process_exchange (account_infos : List AccountInfo) (amount_expected_by_taker : Nat)
    (program_id : Pubkey) (fpa : PdaDerive) (env : CpiEnv) : ProcOut :=
  match account_infos[0]? with
  | none => ⟨some ProgramError.NotEnoughAccountKeys, account_infos, []⟩
  | some taker_account_info =>
  if !taker_account_info.is_signer then
    ⟨some ProgramError.MissingRequiredSignature, account_infos, []⟩
  else
  match account_infos[1]? with
  | none => ⟨some ProgramError.NotEnoughAccountKeys, account_infos, []⟩
  | some takers_sending_account_info =>
  match account_infos[2]? with
  | none => ⟨some ProgramError.NotEnoughAccountKeys, account_infos, []⟩
  | some takers_token_to_receive_account_info =>
  match account_infos[3]? with
  | none => ⟨some ProgramError.NotEnoughAccountKeys, account_infos, []⟩
  | some pda_temp_token_account_info =>
  match TokenAccount.unpack pda_temp_token_account_info.data with
  | Except.error e => ⟨some e, account_infos, []⟩
  | Except.ok pda_temp_token_account =>
  let pda := (fpa program_id).1
  let bump_seed := (fpa program_id).2
  if amount_expected_by_taker ≠ pda_temp_token_account.amount then
    ⟨some EscrowError.ExpectedAmountMismatch.toProgramError, account_infos, []⟩
  else
  match account_infos[4]? with
  | none => ⟨some ProgramError.NotEnoughAccountKeys, account_infos, []⟩
  | some initializers_main_account_info =>
  match account_infos[5]? with
  | none => ⟨some ProgramError.NotEnoughAccountKeys, account_infos, []⟩
  | some initializers_token_to_receive_account_info =>
  match account_infos[6]? with
  | none => ⟨some ProgramError.NotEnoughAccountKeys, account_infos, []⟩
  | some escrow_account_info =>
  match Escrow.unpack escrow_account_info.data with
  | Except.error e => ⟨some e, account_infos, []⟩
  | Except.ok escrow =>
  if escrow.temp_token_account_pubkey ≠ pda_temp_token_account_info.key then
    ⟨some ProgramError.InvalidAccountData, account_infos, []⟩
  else
  if escrow.initializer_pubkey ≠ initializers_main_account_info.key then
    ⟨some ProgramError.InvalidAccountData, account_infos, []⟩
  else
  if escrow.initializer_token_to_receive_account_pubkey ≠
      initializers_token_to_receive_account_info.key then
    ⟨some ProgramError.InvalidAccountData, account_infos, []⟩
  else
  match account_infos[7]? with
  | none => ⟨some ProgramError.NotEnoughAccountKeys, account_infos, []⟩
  | some token_program_account_info =>
  let transfer_to_initializer_ix := TokenInstr.transfer token_program_account_info.key
      takers_sending_account_info.key initializers_token_to_receive_account_info.key
      taker_account_info.key [taker_account_info.key] escrow.expected_amount
  let inv1 : Invocation := ⟨transfer_to_initializer_ix, none⟩
  match env inv1 with
  | some e => ⟨some e, account_infos, [inv1]⟩
  | none =>
  match account_infos[8]? with
  | none => ⟨some ProgramError.NotEnoughAccountKeys, account_infos, [inv1]⟩
  | some pda_account_info =>
  let transfer_to_taker_ix := TokenInstr.transfer token_program_account_info.key
      pda_temp_token_account_info.key takers_token_to_receive_account_info.key
      pda [pda] pda_temp_token_account.amount
  let inv2 : Invocation := ⟨transfer_to_taker_ix, some bump_seed⟩
  match env inv2 with
  | some e => ⟨some e, account_infos, [inv1, inv2]⟩
  | none =>
  let c := close_pda_and_escrow pda_temp_token_account_info token_program_account_info
      initializers_main_account_info pda bump_seed pda_account_info escrow_account_info env
  let account_infos1 :=
    (account_infos.set 4
        { initializers_main_account_info with lamports := c.main_lamports }).set 6
      { escrow_account_info with lamports := c.escrow_lamports, data := c.escrow_data }
  ⟨c.result, account_infos1, [inv1, inv2] ++ c.cpis⟩

/-- processor.rs `process_cancel`.  Account order (instruction.rs):
0 initializer (signer), 1 initializer's original token account, 2 escrow record
account, 3 token program, 4 PDA's temp token account, 5 initializer's main
account, 6 PDA account. -/
def process_cancel (account_infos : List AccountInfo) (program_id : Pubkey)
    (fpa : PdaDerive) (env : CpiEnv) : ProcOut :=
  match account_infos[0]? with
  | none => ⟨some ProgramError.NotEnoughAccountKeys, account_infos, []⟩
  | some initializer_info =>
  if !initializer_info.is_signer then
    ⟨some ProgramError.MissingRequiredSignature, account_infos, []⟩
  else
  match account_infos[1]? with
  | none => ⟨some ProgramError.NotEnoughAccountKeys, account_infos, []⟩
  | some initializer_token_account_info =>
  if initializer_token_account_info.owner ≠ spl_token_id then
    ⟨some ProgramError.IncorrectProgramId, account_infos, []⟩
  else
  match account_infos[2]? with
  | none => ⟨some ProgramError.NotEnoughAccountKeys, account_infos, []⟩
  | some escrow_account_info =>
  match Escrow.unpack_unchecked escrow_account_info.data with
  | Except.error e => ⟨some e, account_infos, []⟩
  | Except.ok escrow =>
  if !escrow.is_initialized then
    ⟨some ProgramError.UninitializedAccount, account_infos, []⟩
  else
  match account_infos[3]? with
  | none => ⟨some ProgramError.NotEnoughAccountKeys, account_infos, []⟩
  | some token_program_account_info =>
  match account_infos[4]? with
  | none => ⟨some ProgramError.NotEnoughAccountKeys, account_infos, []⟩
  | some pda_temp_token_account_info =>
  match TokenAccount.unpack pda_temp_token_account_info.data with
  | Except.error e => ⟨some e, account_infos, []⟩
  | Except.ok _pda_temp_token_account =>
  let pda := (fpa program_id).1
  let bump_seed := (fpa program_id).2
  match account_infos[5]? with
  | none => ⟨some ProgramError.NotEnoughAccountKeys, account_infos, []⟩
  | some initializers_main_account_info =>
  if escrow.temp_token_account_pubkey ≠ pda_temp_token_account_info.key then
    ⟨some ProgramError.InvalidAccountData, account_infos, []⟩
  else
  if escrow.initializer_pubkey ≠ initializers_main_account_info.key then
    ⟨some ProgramError.InvalidAccountData, account_infos, []⟩
  else
  if escrow.initializer_token_to_receive_account_pubkey ≠
      initializer_token_account_info.key then
    ⟨some ProgramError.InvalidAccountData, account_infos, []⟩
  else
  match account_infos[6]? with
  | none => ⟨some ProgramError.NotEnoughAccountKeys, account_infos, []⟩
  | some pda_account_info =>
  match checked_add initializers_main_account_info.lamports
      initializer_token_account_info.lamports with
  | none => ⟨some EscrowError.AmountOverflow.toProgramError, account_infos, []⟩
  | some s1 =>
  let initializers_main1 := { initializers_main_account_info with lamports := s1 }
  let initializer_token1 :=
    { initializer_token_account_info with lamports := 0, data := AccountData.empty }
  let c := close_pda_and_escrow pda_temp_token_account_info token_program_account_info
      initializers_main1 pda bump_seed pda_account_info escrow_account_info env
  let account_infos1 :=
    ((account_infos.set 5 { initializers_main1 with lamports := c.main_lamports }).set 1
        initializer_token1).set 2
      { escrow_account_info with lamports := c.escrow_lamports, data := c.escrow_data }
  ⟨c.result, account_infos1, c.cpis⟩

/-- processor.rs `Processor::process`: decode the request bytes, then dispatch
to the three operations. -/
def process (program_id : Pubkey) (accounts : List AccountInfo)
    (instruction_data : List Nat) (rent_is_exempt : Nat → Nat → Bool)
    (fpa : PdaDerive) (env : CpiEnv) : ProcOut :=
  match EscrowInstruction.unpack instruction_data with
  | Except.error e => ⟨some e, accounts, []⟩
  | Except.ok (EscrowInstruction.InitEscrow amount) =>
      process_init_escrow accounts amount program_id rent_is_exempt fpa env
  | Except.ok (EscrowInstruction.Exchange amount) =>
      process_exchange accounts amount program_id fpa env
  | Except.ok EscrowInstruction.Cancel => process_cancel accounts program_id fpa env

/-- A concrete Cancel account list whose signing account (index 0, key 9) is not
the identity stored in the escrow record (initializer_identity = 5), while the
supplied main account (index 5) does carry key 5.  Order as process_cancel
expects: signer, initializer's token account, escrow record, token program,
PDA temp token account, initializer's main account, PDA account. -/
def cancel_foreign_signer_accounts : List AccountInfo :=
  [⟨9, true, 0, 0, AccountData.other 0⟩,
   ⟨21, false, spl_token_id, 50, AccountData.other 0⟩,
   ⟨22, false, 0, 10, AccountData.escrowData ⟨true, 5, 44, 21, 100⟩⟩,
   ⟨70, false, 0, 0, AccountData.other 0⟩,
   ⟨44, false, spl_token_id, 3, AccountData.tokenData ⟨100⟩⟩,
   ⟨5, false, 0, 1000, AccountData.other 0⟩,
   ⟨78, false, 0, 0, AccountData.other 0⟩]

/-- A concrete Exchange account list whose custody (PDA temp) token account holds
7 units, for a call that declares 5: the amount check must trip. -/
def mismatch_exchange_accounts : List AccountInfo :=
  [⟨1, true, 0, 0, AccountData.other 0⟩,
   ⟨2, false, spl_token_id, 0, AccountData.tokenData ⟨50⟩⟩,
   ⟨3, false, spl_token_id, 0, AccountData.tokenData ⟨0⟩⟩,
   ⟨4, false, spl_token_id, 0, AccountData.tokenData ⟨7⟩⟩]

/-- A concrete Exchange account list whose escrow record stores custody ref 99
while the supplied custody account (index 3) has key 4: the first cross-check
must trip.  Amount 7 matches the custody balance. -/
def c3_exchange_accounts : List AccountInfo :=
  [⟨1, true, 0, 0, AccountData.other 0⟩,
   ⟨2, false, spl_token_id, 0, AccountData.tokenData ⟨50⟩⟩,
   ⟨3, false, spl_token_id, 0, AccountData.tokenData ⟨0⟩⟩,
   ⟨4, false, spl_token_id, 3, AccountData.tokenData ⟨7⟩⟩,
   ⟨5, false, 0, 1000, AccountData.other 0⟩,
   ⟨6, false, spl_token_id, 0, AccountData.tokenData ⟨0⟩⟩,
   ⟨20, false, 0, 5, AccountData.escrowData ⟨true, 5, 99, 6, 10⟩⟩,
   ⟨70, false, 0, 0, AccountData.other 0⟩,
   ⟨80, false, 0, 0, AccountData.other 0⟩]

/-- A concrete Cancel account list whose escrow record stores payout ref 999
while the supplied initializer token account (index 1) has key 21: the third
cross-check must trip. -/
def c3_cancel_accounts : List AccountInfo :=
  [⟨5, true, 0, 0, AccountData.other 0⟩,
   ⟨21, false, spl_token_id, 50, AccountData.other 0⟩,
   ⟨22, false, 0, 10, AccountData.escrowData ⟨true, 5, 44, 999, 100⟩⟩,
   ⟨70, false, 0, 0, AccountData.other 0⟩,
   ⟨44, false, spl_token_id, 3, AccountData.tokenData ⟨100⟩⟩,
   ⟨5, false, 0, 1000, AccountData.other 0⟩,
   ⟨78, false, 0, 0, AccountData.other 0⟩]

/-- A concrete Exchange account list on which every validation passes: custody
balance 7, declared amount 7, record references matching accounts 3, 4, 5. -/
def c4_exchange_accounts : List AccountInfo :=
  [⟨1, true, 0, 0, AccountData.other 0⟩,
   ⟨2, false, spl_token_id, 0, AccountData.tokenData ⟨50⟩⟩,
   ⟨3, false, spl_token_id, 0, AccountData.tokenData ⟨0⟩⟩,
   ⟨4, false, spl_token_id, 3, AccountData.tokenData ⟨7⟩⟩,
   ⟨5, false, 0, 1000, AccountData.other 0⟩,
   ⟨6, false, spl_token_id, 0, AccountData.tokenData ⟨0⟩⟩,
   ⟨20, false, 0, 5, AccountData.escrowData ⟨true, 5, 4, 6, 10⟩⟩,
   ⟨70, false, 0, 0, AccountData.other 0⟩,
   ⟨80, false, 0, 0, AccountData.other 0⟩]

/-- The valid Cancel account list with its record storage already cleared
(index 2 data empty), as it stands after a completed Settle or Cancel. -/
def deleted_record_cancel_accounts : List AccountInfo :=
  [⟨5, true, 0, 0, AccountData.other 0⟩,
   ⟨21, false, spl_token_id, 50, AccountData.other 0⟩,
   ⟨22, false, 0, 0, AccountData.empty⟩,
   ⟨70, false, 0, 0, AccountData.other 0⟩,
   ⟨44, false, spl_token_id, 3, AccountData.tokenData ⟨100⟩⟩,
   ⟨5, false, 0, 1000, AccountData.other 0⟩,
   ⟨78, false, 0, 0, AccountData.other 0⟩]

/-- A concrete Open account list on which every validation passes: signer with
key 5, temp token account 40, token-to-receive account 6 (owned by the token
program, a token account), uninitialized rent-exempt record storage 20, rent
sysvar 90, token program 70. -/
def ok_init_accounts : List AccountInfo :=
  [⟨5, true, 0, 0, AccountData.other 0⟩,
   ⟨40, false, spl_token_id, 2, AccountData.tokenData ⟨100⟩⟩,
   ⟨6, false, spl_token_id, 0, AccountData.tokenData ⟨0⟩⟩,
   ⟨20, false, 0, 100, AccountData.escrowData ⟨false, 0, 0, 0, 0⟩⟩,
   ⟨90, false, 0, 0, AccountData.other 0⟩,
   ⟨70, false, 0, 0, AccountData.other 0⟩]

/-- The same Open call with a bogus custody (temp token) account at index 1:
not a signer, not owned by the token program, holding a mint's data. -/
def bogus_custody_init_accounts : List AccountInfo :=
  [⟨5, true, 0, 0, AccountData.other 0⟩,
   ⟨40, false, 123, 2, AccountData.mintData⟩,
   ⟨6, false, spl_token_id, 0, AccountData.tokenData ⟨0⟩⟩,
   ⟨20, false, 0, 100, AccountData.escrowData ⟨false, 0, 0, 0, 0⟩⟩,
   ⟨90, false, 0, 0, AccountData.other 0⟩,
   ⟨70, false, 0, 0, AccountData.other 0⟩]

/-- The fully valid Cancel account list: signer 5 is the stored initializer,
custody ref 44 and payout ref 21 both match, record storage holds 10 lamports,
the initializer's token account 50, the main account 1000. -/
def valid_cancel_accounts : List AccountInfo :=
  [⟨5, true, 0, 0, AccountData.other 0⟩,
   ⟨21, false, spl_token_id, 50, AccountData.other 0⟩,
   ⟨22, false, 0, 10, AccountData.escrowData ⟨true, 5, 44, 21, 100⟩⟩,
   ⟨70, false, 0, 0, AccountData.other 0⟩,
   ⟨44, false, spl_token_id, 3, AccountData.tokenData ⟨100⟩⟩,
   ⟨5, false, 0, 1000, AccountData.other 0⟩,
   ⟨78, false, 0, 0, AccountData.other 0⟩]

/-- C1: evaluation at the failing input.  A Cancel whose signer (key 9, account
index 0) is not the stored initializer identity (5) nonetheless succeeds, because
process_cancel checks only that account 0 signed and compares the record's
initializer_identity against the key of the supplied main account (index 5); the
signer's own key is never compared with the record. -/
theorem C1_cancel_foreign_signer_succeeds :
    cancel_foreign_signer_accounts[0]?.map AccountInfo.key = some 9 ∧
    cancel_foreign_signer_accounts[0]?.map AccountInfo.is_signer = some true ∧
    cancel_foreign_signer_accounts[2]?.map AccountInfo.data =
      some (AccountData.escrowData ⟨true, 5, 44, 21, 100⟩) ∧
    (process_cancel cancel_foreign_signer_accounts 77 (fun p => (p + 1, 255))
        (fun _ => none)).result = none :=
  ⟨rfl, rfl, rfl, rfl⟩

/-- C2: whenever the taker-declared amount differs from the custody token
account's current balance, Settle fails with ExpectedAmountMismatch, with no
sub-call issued and every account unchanged. -/
theorem C2_settle_amount_mismatch_fails_before_transfers
    (account_infos : List AccountInfo) (amount_expected_by_taker : Nat)
    (program_id : Pubkey) (fpa : PdaDerive) (env : CpiEnv)
    (taker a1 a2 a3 : AccountInfo) (tok : TokenAccount)
    (h0 : account_infos[0]? = some taker)
    (hs : taker.is_signer = true)
    (h1 : account_infos[1]? = some a1)
    (h2 : account_infos[2]? = some a2)
    (h3 : account_infos[3]? = some a3)
    (ht : TokenAccount.unpack a3.data = Except.ok tok)
    (hne : amount_expected_by_taker ≠ tok.amount) :
    process_exchange account_infos amount_expected_by_taker program_id fpa env =
      ⟨some EscrowError.ExpectedAmountMismatch.toProgramError, account_infos, []⟩ := by
  simp [process_exchange, h0, hs, h1, h2, h3, ht, hne]

/-- C2 witness: the concrete mismatch call (declared 5, custody balance 7)
fails with Custom 2 = ExpectedAmountMismatch, unchanged accounts, no sub-call. -/
theorem C2_settle_amount_mismatch_witness :
    process_exchange mismatch_exchange_accounts 5 77 (fun p => (p + 1, 255))
        (fun _ => none) =
      ⟨some (ProgramError.Custom 2), mismatch_exchange_accounts, []⟩ :=
  C2_settle_amount_mismatch_fails_before_transfers mismatch_exchange_accounts 5 77
    (fun p => (p + 1, 255)) (fun _ => none) _ _ _ _ ⟨7⟩ rfl rfl rfl rfl rfl rfl
    (by decide)

/-- C6: evaluation at the failing input.  No variant of the EscrowError enum as
error.rs declares it converts to the codes the processor returns for
ExpectedAmountMismatch (Custom 2) or AmountOverflow (Custom 3), yet
process_exchange does return Custom 2 on an amount mismatch: the processor uses
error kinds that are missing from the declared enum. -/
theorem C6_declared_enum_lacks_processor_error_kinds :
    (∀ e : EscrowErrorDecl,
      e.toProgramError ≠ EscrowError.ExpectedAmountMismatch.toProgramError) ∧
    (∀ e : EscrowErrorDecl,
      e.toProgramError ≠ EscrowError.AmountOverflow.toProgramError) ∧
    (process_exchange mismatch_exchange_accounts 5 77 (fun p => (p + 1, 255))
        (fun _ => none)).result = some EscrowError.ExpectedAmountMismatch.toProgramError := by
  refine ⟨?_, ?_, rfl⟩ <;>
    (intro e; cases e <;>
      simp [EscrowErrorDecl.toProgramError, EscrowErrorDecl.code,
        EscrowError.toProgramError, EscrowError.code])

/-- Bytes below 256 read little-endian stay below 256 to the length's power. -/
theorem u64_le_lt_pow (bs : List Nat) (hb : ∀ b ∈ bs, b < 256) :
    u64_le bs < 256 ^ bs.length := by
  induction bs with
  | nil => simp [u64_le]
  | cons b bs ih =>
    have hb0 : b < 256 := hb b (List.mem_cons_self b bs)
    have ih1 : u64_le bs < 256 ^ bs.length :=
      ih (fun x hx => hb x (List.mem_cons_of_mem b hx))
    calc b + 256 * u64_le bs < 256 * (u64_le bs + 1) := by omega
      _ ≤ 256 * 256 ^ bs.length := by
        have := Nat.succ_le_of_lt ih1
        exact Nat.mul_le_mul_left 256 this
      _ = 256 ^ (bs.length + 1) := by ring

/-- C5 counterexample: a tag-0 buffer with nine trailing bytes (not exactly
eight) does not fail: the decoder reads only the first eight and accepts it. -/
theorem C5_extra_trailing_bytes_accepted :
    EscrowInstruction.unpack [0, 1, 0, 0, 0, 0, 0, 0, 0, 0] =
      Except.ok (EscrowInstruction.InitEscrow 1) := rfl

/-- C5 (amended): tag 0 / tag 1 need AT LEAST eight trailing bytes and read the
first eight as an unsigned 64-bit little-endian integer (any further bytes are
ignored), yielding Open/Settle; fewer than eight trailing bytes, an empty
buffer, or an unrecognized tag fail with InvalidInstruction; tag 2 yields
Cancel, ignoring any trailing bytes; and eight in-range bytes always denote a
value below 2^64. -/
theorem C5_unpack_amended :
    (∀ rest : List Nat, 8 ≤ rest.length →
      EscrowInstruction.unpack (0 :: rest) =
          Except.ok (EscrowInstruction.InitEscrow (u64_le (rest.take 8))) ∧
        EscrowInstruction.unpack (1 :: rest) =
          Except.ok (EscrowInstruction.Exchange (u64_le (rest.take 8)))) ∧
    (∀ rest : List Nat, rest.length < 8 →
      EscrowInstruction.unpack (0 :: rest) =
          Except.error EscrowError.InvalidInstruction.toProgramError ∧
        EscrowInstruction.unpack (1 :: rest) =
          Except.error EscrowError.InvalidInstruction.toProgramError) ∧
    (∀ rest : List Nat,
      EscrowInstruction.unpack (2 :: rest) = Except.ok EscrowInstruction.Cancel) ∧
    (∀ (tag : Nat) (rest : List Nat), 2 < tag →
      EscrowInstruction.unpack (tag :: rest) =
        Except.error EscrowError.InvalidInstruction.toProgramError) ∧
    (EscrowInstruction.unpack [] =
      Except.error EscrowError.InvalidInstruction.toProgramError) ∧
    (∀ rest : List Nat, (∀ b ∈ rest, b < 256) →
      u64_le (rest.take 8) < U64_LIMIT) := by
  refine ⟨?_, ?_, fun rest => rfl, ?_, rfl, ?_⟩
  · intro rest h
    constructor <;> simp [EscrowInstruction.unpack, unpack_amount, h, Except.map]
  · intro rest h
    have h8 : ¬ 8 ≤ rest.length := by omega
    constructor <;> simp [EscrowInstruction.unpack, unpack_amount, h8, Except.map]
  · intro tag rest h
    obtain ⟨k, rfl⟩ : ∃ k, tag = k + 3 := ⟨tag - 3, by omega⟩
    rfl
  · intro rest hb
    have hlen : (rest.take 8).length ≤ 8 := by
      simp [List.length_take]
    have hlt : u64_le (rest.take 8) < 256 ^ (rest.take 8).length :=
      u64_le_lt_pow (rest.take 8) (fun b hbmem => hb b (List.mem_of_mem_take hbmem))
    have : (256 : Nat) ^ (rest.take 8).length ≤ 256 ^ 8 :=
      Nat.pow_le_pow_right (by omega) hlen
    have h88 : (256 : Nat) ^ 8 = U64_LIMIT := by norm_num [U64_LIMIT]
    omega

/-- C5 witness: concrete decodings — eight trailing bytes decode little-endian
(tag 1 with bytes 2,1 is 258), seven bytes fail, tag 2 with garbage is Cancel,
tag 9 fails. -/
theorem C5_unpack_amended_witness :
    EscrowInstruction.unpack [1, 2, 1, 0, 0, 0, 0, 0, 0] =
        Except.ok (EscrowInstruction.Exchange 258) ∧
      EscrowInstruction.unpack [0, 1, 1, 1, 1, 1, 1, 1] =
        Except.error (ProgramError.Custom 0) ∧
      EscrowInstruction.unpack [2, 9, 9, 9] = Except.ok EscrowInstruction.Cancel ∧
      EscrowInstruction.unpack [9, 1, 2] = Except.error (ProgramError.Custom 0) :=
  ⟨((C5_unpack_amended.1 [2, 1, 0, 0, 0, 0, 0, 0] (by decide)).2 : _),
    ((C5_unpack_amended.2.1 [1, 1, 1, 1, 1, 1, 1] (by decide)).1 : _),
    C5_unpack_amended.2.2.1 [9, 9, 9],
    C5_unpack_amended.2.2.2.1 9 [1, 2] (by decide)⟩

/-- C3: in Settle and in Cancel alike, once the record is decoded, a mismatch of
any one of the three stored references (custody account, initializer main
account, initializer payout account) against the corresponding supplied
account's key — whichever of the three it is — fails the operation with
InvalidAccountData, unchanged accounts, no sub-call. -/
theorem C3_reference_cross_checks :
    (∀ (account_infos : List AccountInfo) (amount_expected_by_taker : Nat)
      (program_id : Pubkey) (fpa : PdaDerive) (env : CpiEnv)
      (taker a1 a2 a3 a4 a5 a6 : AccountInfo) (tok : TokenAccount) (esc : Escrow),
      account_infos[0]? = some taker → taker.is_signer = true →
      account_infos[1]? = some a1 → account_infos[2]? = some a2 →
      account_infos[3]? = some a3 → TokenAccount.unpack a3.data = Except.ok tok →
      amount_expected_by_taker = tok.amount →
      account_infos[4]? = some a4 → account_infos[5]? = some a5 →
      account_infos[6]? = some a6 → Escrow.unpack a6.data = Except.ok esc →
      (esc.temp_token_account_pubkey ≠ a3.key ∨
        esc.initializer_pubkey ≠ a4.key ∨
        esc.initializer_token_to_receive_account_pubkey ≠ a5.key) →
      process_exchange account_infos amount_expected_by_taker program_id fpa env =
        ⟨some ProgramError.InvalidAccountData, account_infos, []⟩) ∧
    (∀ (account_infos : List AccountInfo) (program_id : Pubkey)
      (fpa : PdaDerive) (env : CpiEnv)
      (a0 a1 a2 a3 a4 a5 : AccountInfo) (esc : Escrow) (tok : TokenAccount),
      account_infos[0]? = some a0 → a0.is_signer = true →
      account_infos[1]? = some a1 → a1.owner = spl_token_id →
      account_infos[2]? = some a2 → Escrow.unpack_unchecked a2.data = Except.ok esc →
      esc.is_initialized = true →
      account_infos[3]? = some a3 →
      account_infos[4]? = some a4 → TokenAccount.unpack a4.data = Except.ok tok →
      account_infos[5]? = some a5 →
      (esc.temp_token_account_pubkey ≠ a4.key ∨
        esc.initializer_pubkey ≠ a5.key ∨
        esc.initializer_token_to_receive_account_pubkey ≠ a1.key) →
      process_cancel account_infos program_id fpa env =
        ⟨some ProgramError.InvalidAccountData, account_infos, []⟩) := by
  constructor
  · intro accs amt pid fpa env taker a1 a2 a3 a4 a5 a6 tok esc
      h0 hs h1 h2 h3 ht heq h4 h5 h6 he hmm
    rcases hmm with hA | hB | hC
    · simp [process_exchange, h0, hs, h1, h2, h3, ht, heq, h4, h5, h6, he, hA]
    · by_cases hA : esc.temp_token_account_pubkey = a3.key <;>
        simp [process_exchange, h0, hs, h1, h2, h3, ht, heq, h4, h5, h6, he, hA, hB]
    · by_cases hA : esc.temp_token_account_pubkey = a3.key <;>
        by_cases hB : esc.initializer_pubkey = a4.key <;>
        simp [process_exchange, h0, hs, h1, h2, h3, ht, heq, h4, h5, h6, he, hA, hB, hC]
  · intro accs pid fpa env a0 a1 a2 a3 a4 a5 esc tok
      h0 hs h1 how h2 hu hi h3 h4 ht h5 hmm
    rcases hmm with hA | hB | hC
    · simp [process_cancel, h0, hs, h1, how, h2, hu, hi, h3, h4, ht, h5, hA]
    · by_cases hA : esc.temp_token_account_pubkey = a4.key <;>
        simp [process_cancel, h0, hs, h1, how, h2, hu, hi, h3, h4, ht, h5, hA, hB]
    · by_cases hA : esc.temp_token_account_pubkey = a4.key <;>
        by_cases hB : esc.initializer_pubkey = a5.key <;>
        simp [process_cancel, h0, hs, h1, how, h2, hu, hi, h3, h4, ht, h5, hA, hB, hC]

/-- C3 witness: a Settle whose record stores custody ref 99 against supplied key
4, and a Cancel whose record stores payout ref 999 against supplied key 21, each
fail with InvalidAccountData, unchanged, no sub-call. -/
theorem C3_reference_cross_checks_witness :
    process_exchange c3_exchange_accounts 7 77 (fun p => (p + 1, 255)) (fun _ => none) =
        ⟨some ProgramError.InvalidAccountData, c3_exchange_accounts, []⟩ ∧
      process_cancel c3_cancel_accounts 77 (fun p => (p + 1, 255)) (fun _ => none) =
        ⟨some ProgramError.InvalidAccountData, c3_cancel_accounts, []⟩ :=
  ⟨C3_reference_cross_checks.1 c3_exchange_accounts 7 77 (fun p => (p + 1, 255))
      (fun _ => none) _ _ _ _ _ _ _ ⟨7⟩ ⟨true, 5, 99, 6, 10⟩
      rfl rfl rfl rfl rfl rfl rfl rfl rfl rfl rfl (Or.inl (by decide)),
    C3_reference_cross_checks.2 c3_cancel_accounts 77 (fun p => (p + 1, 255))
      (fun _ => none) _ _ _ _ _ _ ⟨true, 5, 44, 999, 100⟩ ⟨100⟩
      rfl rfl rfl rfl rfl rfl rfl rfl rfl rfl rfl (Or.inr (Or.inr (by decide)))⟩

/-- C4: on the success path, Settle issues exactly three token-program sub-calls
in order: (1) by plain invoke (taker's ordinary authority), a transfer of the
record's expected_amount from the taker's source account to the initializer's
payout account; (2) by invoke_signed under the re-derived program identity, a
transfer of the custody account's full balance from the custody account to the
taker's destination account; (3) by invoke_signed under the same derived
identity, a close of the custody account paying out to the initializer's main
account. -/
theorem C4_settle_success_subcall_sequence
    (account_infos : List AccountInfo) (amount_expected_by_taker : Nat)
    (program_id : Pubkey) (fpa : PdaDerive) (env : CpiEnv)
    (taker a1 a2 a3 a4 a5 a6 a7 a8 : AccountInfo) (tok : TokenAccount)
    (esc : Escrow) (s : Nat)
    (h0 : account_infos[0]? = some taker) (hs : taker.is_signer = true)
    (h1 : account_infos[1]? = some a1) (h2 : account_infos[2]? = some a2)
    (h3 : account_infos[3]? = some a3)
    (ht : TokenAccount.unpack a3.data = Except.ok tok)
    (heq : amount_expected_by_taker = tok.amount)
    (h4 : account_infos[4]? = some a4) (h5 : account_infos[5]? = some a5)
    (h6 : account_infos[6]? = some a6)
    (he : Escrow.unpack a6.data = Except.ok esc)
    (hm1 : esc.temp_token_account_pubkey = a3.key)
    (hm2 : esc.initializer_pubkey = a4.key)
    (hm3 : esc.initializer_token_to_receive_account_pubkey = a5.key)
    (h7 : account_infos[7]? = some a7) (h8 : account_infos[8]? = some a8)
    (henv1 : env ⟨TokenInstr.transfer a7.key a1.key a5.key taker.key [taker.key]
        esc.expected_amount, none⟩ = none)
    (henv2 : env ⟨TokenInstr.transfer a7.key a3.key a2.key (fpa program_id).1
        [(fpa program_id).1] tok.amount, some (fpa program_id).2⟩ = none)
    (henv3 : env ⟨TokenInstr.close_account a7.key a3.key a4.key (fpa program_id).1
        [(fpa program_id).1], some (fpa program_id).2⟩ = none)
    (hadd : checked_add a4.lamports a6.lamports = some s) :
    process_exchange account_infos amount_expected_by_taker program_id fpa env =
      ⟨none,
        (account_infos.set 4 { a4 with lamports := s }).set 6
          { a6 with lamports := 0, data := AccountData.empty },
        [⟨TokenInstr.transfer a7.key a1.key a5.key taker.key [taker.key]
            esc.expected_amount, none⟩,
          ⟨TokenInstr.transfer a7.key a3.key a2.key (fpa program_id).1
            [(fpa program_id).1] tok.amount, some (fpa program_id).2⟩,
          ⟨TokenInstr.close_account a7.key a3.key a4.key (fpa program_id).1
            [(fpa program_id).1], some (fpa program_id).2⟩]⟩ := by
  simp [process_exchange, close_pda_and_escrow, h0, hs, h1, h2, h3, ht, heq,
    h4, h5, h6, he, hm1, hm2, hm3, h7, h8, henv1, henv2, henv3, hadd]

/-- C4 witness: the concrete all-valid Settle run succeeds and issues exactly the
three sub-calls, in order: taker-signed transfer of 10 from account 2 to account
6, PDA-signed transfer of the custody balance 7 from account 4 to account 3, and
PDA-signed close of account 4 paying account 5. -/
theorem C4_settle_success_subcall_sequence_witness :
    process_exchange c4_exchange_accounts 7 77 (fun p => (p + 1, 255)) (fun _ => none) =
      ⟨none,
        (c4_exchange_accounts.set 4 ⟨5, false, 0, 1005, AccountData.other 0⟩).set 6
          ⟨20, false, 0, 0, AccountData.empty⟩,
        [⟨TokenInstr.transfer 70 2 6 1 [1] 10, none⟩,
          ⟨TokenInstr.transfer 70 4 3 78 [78] 7, some 255⟩,
          ⟨TokenInstr.close_account 70 4 5 78 [78], some 255⟩]⟩ :=
  C4_settle_success_subcall_sequence c4_exchange_accounts 7 77
    (fun p => (p + 1, 255)) (fun _ => none) _ _ _ _ _ _ _ _ _ ⟨7⟩
    ⟨true, 5, 4, 6, 10⟩ 1005 rfl rfl rfl rfl rfl rfl rfl rfl rfl rfl rfl rfl rfl
    rfl rfl rfl rfl rfl rfl rfl

/-- C7: a deleted escrow record region (cleared storage) makes every later
Settle or Cancel on it fail with unchanged accounts and no sub-call; under
Cancel's own preceding checks the failure is specifically UninitializedAccount. -/
theorem C7_deleted_record_settle_cancel_fail :
    (∀ (account_infos : List AccountInfo) (amount_expected_by_taker : Nat)
      (program_id : Pubkey) (fpa : PdaDerive) (env : CpiEnv) (a6 : AccountInfo),
      account_infos[6]? = some a6 → a6.data = AccountData.empty →
      ∃ e, process_exchange account_infos amount_expected_by_taker program_id fpa env =
        ⟨some e, account_infos, []⟩) ∧
    (∀ (account_infos : List AccountInfo) (program_id : Pubkey)
      (fpa : PdaDerive) (env : CpiEnv) (a2 : AccountInfo),
      account_infos[2]? = some a2 → a2.data = AccountData.empty →
      ∃ e, process_cancel account_infos program_id fpa env =
        ⟨some e, account_infos, []⟩) ∧
    (∀ (account_infos : List AccountInfo) (program_id : Pubkey)
      (fpa : PdaDerive) (env : CpiEnv) (a0 a1 a2 : AccountInfo),
      account_infos[0]? = some a0 → a0.is_signer = true →
      account_infos[1]? = some a1 → a1.owner = spl_token_id →
      account_infos[2]? = some a2 → a2.data = AccountData.empty →
      process_cancel account_infos program_id fpa env =
        ⟨some ProgramError.UninitializedAccount, account_infos, []⟩) := by
  refine ⟨?_, ?_, ?_⟩
  · intro accs amt pid fpa env a6 h6 hd
    unfold process_exchange
    repeat' split
    all_goals first
      | exact ⟨_, rfl⟩
      | (exfalso; simp_all [Escrow.unpack, Escrow.unpack_unchecked])
  · intro accs pid fpa env a2 h2 hd
    unfold process_cancel
    repeat' split
    all_goals first
      | exact ⟨_, rfl⟩
      | (exfalso; simp_all [Escrow.unpack_unchecked]; (try subst_vars); (try simp_all))
  · intro accs pid fpa env a0 a1 a2 h0 hs h1 how h2 hd
    simp [process_cancel, h0, hs, h1, how, h2, hd, Escrow.unpack_unchecked]

/-- C7 witness: a Cancel on the cleared record storage fails with
UninitializedAccount, all accounts unchanged, no sub-call issued. -/
theorem C7_deleted_record_witness :
    process_cancel deleted_record_cancel_accounts 77 (fun p => (p + 1, 255))
        (fun _ => none) =
      ⟨some ProgramError.UninitializedAccount, deleted_record_cancel_accounts, []⟩ :=
  C7_deleted_record_settle_cancel_fail.2.2 deleted_record_cancel_accounts 77
    (fun p => (p + 1, 255)) (fun _ => none) _ _ _ rfl rfl rfl rfl rfl rfl

/-- C8: an Open call that passes every validation succeeds and writes back a
record with is_initialized = true whose identity, custody reference, payout
reference and expected amount are exactly the supplied initializer key, temp
token account key, token-to-receive account key and decoded amount. -/
theorem C8_open_writes_supplied_fields
    (account_infos : List AccountInfo) (amount : Nat) (program_id : Pubkey)
    (rent_is_exempt : Nat → Nat → Bool) (fpa : PdaDerive) (env : CpiEnv)
    (a0 a1 a2 a3 a4 a5 : AccountInfo) (t : TokenAccount) (e0 : Escrow)
    (h0 : account_infos[0]? = some a0) (hs : a0.is_signer = true)
    (h1 : account_infos[1]? = some a1)
    (h2 : account_infos[2]? = some a2) (how : a2.owner = spl_token_id)
    (ht : TokenAccount.unpack a2.data = Except.ok t)
    (h3 : account_infos[3]? = some a3) (h4 : account_infos[4]? = some a4)
    (hrent : rent_is_exempt a3.lamports a3.data.len = true)
    (hu : Escrow.unpack_unchecked a3.data = Except.ok e0)
    (hi : e0.is_initialized = false)
    (h5 : account_infos[5]? = some a5)
    (henv : env ⟨TokenInstr.set_authority a5.key a1.key (some (fpa program_id).1)
        a0.key [a0.key], none⟩ = none) :
    process_init_escrow account_infos amount program_id rent_is_exempt fpa env =
      ⟨none,
        account_infos.set 3
          { a3 with data := AccountData.escrowData ⟨true, a0.key, a1.key, a2.key, amount⟩ },
        [⟨TokenInstr.set_authority a5.key a1.key (some (fpa program_id).1)
          a0.key [a0.key], none⟩]⟩ := by
  simp [process_init_escrow, h0, hs, h1, h2, how, ht, h3, h4, hrent, hu, hi, h5, henv]

/-- C8 witness: the concrete valid Open with amount 42 succeeds, writing the
record (true, 5, 40, 6, 42) into the storage account at index 3 and issuing the
one authority-change sub-call. -/
theorem C8_open_writes_supplied_fields_witness :
    process_init_escrow ok_init_accounts 42 77 (fun _ _ => true)
        (fun p => (p + 1, 255)) (fun _ => none) =
      ⟨none,
        ok_init_accounts.set 3
          ⟨20, false, 0, 100, AccountData.escrowData ⟨true, 5, 40, 6, 42⟩⟩,
        [⟨TokenInstr.set_authority 70 40 (some 78) 5 [5], none⟩]⟩ :=
  C8_open_writes_supplied_fields ok_init_accounts 42 77 (fun _ _ => true)
    (fun p => (p + 1, 255)) (fun _ => none) _ _ _ _ _ _ ⟨0⟩ ⟨false, 0, 0, 0, 0⟩
    rfl rfl rfl rfl rfl rfl rfl rfl rfl rfl rfl rfl rfl

/-- C10: Open checks nothing about the account supplied in the custody position
(index 1) — the theorem quantifies over an arbitrary account there, with no
hypothesis on its signer flag, owner or data.  Whatever it is, its key is stored
into the record's custody reference, the record write happens, and the single
authority-change sub-call carries that key; the call's outcome is exactly the
sub-call's outcome, so rejection of a bad custody account can come only from the
token program, after the record is written. -/
theorem C10_open_custody_account_unvalidated
    (account_infos : List AccountInfo) (amount : Nat) (program_id : Pubkey)
    (rent_is_exempt : Nat → Nat → Bool) (fpa : PdaDerive) (env : CpiEnv)
    (a0 a1 a2 a3 a4 a5 : AccountInfo) (t : TokenAccount) (e0 : Escrow)
    (h0 : account_infos[0]? = some a0) (hs : a0.is_signer = true)
    (h1 : account_infos[1]? = some a1)
    (h2 : account_infos[2]? = some a2) (how : a2.owner = spl_token_id)
    (ht : TokenAccount.unpack a2.data = Except.ok t)
    (h3 : account_infos[3]? = some a3) (h4 : account_infos[4]? = some a4)
    (hrent : rent_is_exempt a3.lamports a3.data.len = true)
    (hu : Escrow.unpack_unchecked a3.data = Except.ok e0)
    (hi : e0.is_initialized = false)
    (h5 : account_infos[5]? = some a5) :
    process_init_escrow account_infos amount program_id rent_is_exempt fpa env =
      ⟨env ⟨TokenInstr.set_authority a5.key a1.key (some (fpa program_id).1)
          a0.key [a0.key], none⟩,
        account_infos.set 3
          { a3 with data := AccountData.escrowData ⟨true, a0.key, a1.key, a2.key, amount⟩ },
        [⟨TokenInstr.set_authority a5.key a1.key (some (fpa program_id).1)
          a0.key [a0.key], none⟩]⟩ := by
  cases hE : env ⟨TokenInstr.set_authority a5.key a1.key (some (fpa program_id).1)
      a0.key [a0.key], none⟩ <;>
    simp [process_init_escrow, h0, hs, h1, h2, how, ht, h3, h4, hrent, hu, hi, h5, hE]

/-- C10 witness: the Open call with the bogus custody account (a mint owned by
program 123) still writes the record storing custody ref 40 and issues the
authority-change sub-call for it; with a token program that rejects the
sub-call, the whole call fails only then — with the record already written. -/
theorem C10_open_custody_account_unvalidated_witness :
    process_init_escrow bogus_custody_init_accounts 42 77 (fun _ _ => true)
        (fun p => (p + 1, 255)) (fun _ => some ProgramError.InvalidAccountData) =
      ⟨some ProgramError.InvalidAccountData,
        bogus_custody_init_accounts.set 3
          ⟨20, false, 0, 100, AccountData.escrowData ⟨true, 5, 40, 6, 42⟩⟩,
        [⟨TokenInstr.set_authority 70 40 (some 78) 5 [5], none⟩]⟩ :=
  C10_open_custody_account_unvalidated bogus_custody_init_accounts 42 77
    (fun _ _ => true) (fun p => (p + 1, 255))
    (fun _ => some ProgramError.InvalidAccountData) _ _ _ _ _ _ ⟨0⟩
    ⟨false, 0, 0, 0, 0⟩ rfl rfl rfl rfl rfl rfl rfl rfl rfl rfl rfl rfl

/-- C9: every inline balance reclamation uses checked addition into the
initializer's main account and fails with AmountOverflow past u64::MAX; on
success the closed account's balance is zeroed and its data region cleared, so
the main account grows by exactly the reclaimed balances.  First conjunct: the
closing routine shared by Settle and Cancel (escrow-record reclamation).
Second conjunct: Cancel's own reclamation of the initializer's asset account
followed by that routine. -/
theorem C9_reclamations_checked_and_exact :
    (∀ (pt tp main pa esc : AccountInfo) (pda : Pubkey) (bump : Nat) (env : CpiEnv),
      env ⟨TokenInstr.close_account tp.key pt.key main.key pda [pda], some bump⟩ = none →
      (main.lamports + esc.lamports < U64_LIMIT →
        close_pda_and_escrow pt tp main pda bump pa esc env =
          ⟨none, main.lamports + esc.lamports, 0, AccountData.empty,
            [⟨TokenInstr.close_account tp.key pt.key main.key pda [pda], some bump⟩]⟩) ∧
      (U64_LIMIT ≤ main.lamports + esc.lamports →
        close_pda_and_escrow pt tp main pda bump pa esc env =
          ⟨some EscrowError.AmountOverflow.toProgramError, main.lamports,
            esc.lamports, esc.data,
            [⟨TokenInstr.close_account tp.key pt.key main.key pda [pda], some bump⟩]⟩)) ∧
    (∀ (account_infos : List AccountInfo) (program_id : Pubkey)
      (fpa : PdaDerive) (env : CpiEnv)
      (a0 a1 a2 a3 a4 a5 a6 : AccountInfo) (esc : Escrow) (tok : TokenAccount),
      account_infos[0]? = some a0 → a0.is_signer = true →
      account_infos[1]? = some a1 → a1.owner = spl_token_id →
      account_infos[2]? = some a2 → Escrow.unpack_unchecked a2.data = Except.ok esc →
      esc.is_initialized = true →
      account_infos[3]? = some a3 →
      account_infos[4]? = some a4 → TokenAccount.unpack a4.data = Except.ok tok →
      account_infos[5]? = some a5 →
      esc.temp_token_account_pubkey = a4.key →
      esc.initializer_pubkey = a5.key →
      esc.initializer_token_to_receive_account_pubkey = a1.key →
      account_infos[6]? = some a6 →
      (U64_LIMIT ≤ a5.lamports + a1.lamports →
        process_cancel account_infos program_id fpa env =
          ⟨some EscrowError.AmountOverflow.toProgramError, account_infos, []⟩) ∧
      (a5.lamports + a1.lamports < U64_LIMIT →
        env ⟨TokenInstr.close_account a3.key a4.key a5.key (fpa program_id).1
          [(fpa program_id).1], some (fpa program_id).2⟩ = none →
        a5.lamports + a1.lamports + a2.lamports < U64_LIMIT →
        process_cancel account_infos program_id fpa env =
          ⟨none,
            ((account_infos.set 5
                  { a5 with lamports := a5.lamports + a1.lamports + a2.lamports }).set 1
                { a1 with lamports := 0, data := AccountData.empty }).set 2
              { a2 with lamports := 0, data := AccountData.empty },
            [⟨TokenInstr.close_account a3.key a4.key a5.key (fpa program_id).1
              [(fpa program_id).1], some (fpa program_id).2⟩]⟩)) := by
  constructor
  · intro pt tp main pa esc pda bump env henv
    constructor
    · intro hlt
      simp [close_pda_and_escrow, henv, checked_add, hlt]
    · intro hge
      simp [close_pda_and_escrow, henv, checked_add, Nat.not_lt.mpr hge]
  · intro accs pid fpa env a0 a1 a2 a3 a4 a5 a6 esc tok
      h0 hs h1 how h2 hu hi h3 h4 ht h5 hm1 hm2 hm3 h6
    constructor
    · intro hge
      simp [process_cancel, h0, hs, h1, how, h2, hu, hi, h3, h4, ht, h5,
        hm1, hm2, hm3, h6, checked_add, Nat.not_lt.mpr hge]
    · intro hlt1 henv hlt2
      simp [process_cancel, close_pda_and_escrow, h0, hs, h1, how, h2, hu, hi,
        h3, h4, ht, h5, hm1, hm2, hm3, h6, henv, checked_add, hlt1, hlt2]

/-- C9 witness: closing with main 1000 and record 10 yields exactly 1010 and a
cleared record; the concrete valid Cancel ends with the main account at
1000 + 50 + 10 = 1060, the asset account and the record both zeroed and
cleared. -/
theorem C9_reclamations_witness :
    close_pda_and_escrow ⟨44, false, spl_token_id, 3, AccountData.tokenData ⟨100⟩⟩
        ⟨70, false, 0, 0, AccountData.other 0⟩ ⟨5, false, 0, 1000, AccountData.other 0⟩
        78 255 ⟨78, false, 0, 0, AccountData.other 0⟩
        ⟨22, false, 0, 10, AccountData.escrowData ⟨true, 5, 44, 21, 100⟩⟩
        (fun _ => none) =
      ⟨none, 1010, 0, AccountData.empty,
        [⟨TokenInstr.close_account 70 44 5 78 [78], some 255⟩]⟩ ∧
    process_cancel valid_cancel_accounts 77 (fun p => (p + 1, 255)) (fun _ => none) =
      ⟨none,
        ((valid_cancel_accounts.set 5 ⟨5, false, 0, 1060, AccountData.other 0⟩).set 1
            ⟨21, false, spl_token_id, 0, AccountData.empty⟩).set 2
          ⟨22, false, 0, 0, AccountData.empty⟩,
        [⟨TokenInstr.close_account 70 44 5 78 [78], some 255⟩]⟩ :=
  ⟨(C9_reclamations_checked_and_exact.1 ⟨44, false, spl_token_id, 3,
      AccountData.tokenData ⟨100⟩⟩ ⟨70, false, 0, 0, AccountData.other 0⟩
      ⟨5, false, 0, 1000, AccountData.other 0⟩ ⟨78, false, 0, 0, AccountData.other 0⟩
      ⟨22, false, 0, 10, AccountData.escrowData ⟨true, 5, 44, 21, 100⟩⟩
      78 255 (fun _ => none) rfl).1 (by decide),
    (C9_reclamations_checked_and_exact.2 valid_cancel_accounts 77
      (fun p => (p + 1, 255)) (fun _ => none) _ _ _ _ _ _ _
      ⟨true, 5, 44, 21, 100⟩ ⟨100⟩ rfl rfl rfl rfl rfl rfl rfl rfl rfl rfl rfl
      rfl rfl rfl rfl).2 (by decide) rfl (by decide)⟩
